import Mathlib

/-!
Verification of the Proxmox Terraform provider core pipeline:
configuration validation + client construction (`ProxmoxProvider.Configure`),
request construction (`ProxmoxClient.DoRequest`), and the storages list
operation (`StoragesDataSource.Read`) with its JSON decode and per-record
projection.

The HTTP transport, the TLS stack and the JSON parser itself are external
components: an HTTP response is modelled by its status code, its raw body,
and the (possibly failing) JSON parse of that body, carried as an
`Option JVal`.
-/

namespace Proxmox

/-- JSON values as decoded by the Go encoding/json package into
`interface` values: strings, booleans, nulls, arrays, objects, and
numbers (decoded as `float64` on the wire; modelled here as rationals,
which represent every value a binary float can carry). -/
inductive JVal where
  | null
  | bool (b : Bool)
  | num (q : Rat)
  | str (s : String)
  | arr (elems : List JVal)
  | obj (fields : List (String × JVal))

/-- A raw record: the untyped string-to-value field map decoded from one
element of the payload array. -/
abbrev RawRecord := List (String × JVal)

/-- Key lookup in a decoded JSON object. The Go decoder builds a map in
which a later duplicate key overwrites an earlier one, so the last
occurrence wins. -/
def lookupJ (key : String) : List (String × JVal) → Option JVal
  | [] => none
  | (k, v) :: rest =>
    match lookupJ key rest with
    | some w => some w
    | none => if k = key then some v else none

/-- Go strings.TrimSuffix: drops `suff` from the end of `s` exactly once,
when present. Stated on the underlying character lists. -/
def trimSuffix (s suff : String) : String :=
  if suff.data.isSuffixOf s.data then
    ⟨s.data.take (s.data.length - suff.data.length)⟩
  else s

/-- The client descriptor built by `Configure`: endpoint, token
credentials, and the TLS-verification switch of the transport. -/
structure ProxmoxClient where
  endpoint : String
  tokenID : String
  tokenSecret : String
  insecureSkipVerify : Bool

/-- The user-supplied provider configuration. Terraform string and bool
attributes are nullable, hence `Option`; `none` models a null (absent)
attribute value. -/
structure ProxmoxProviderModel where
  endpoint : Option String
  tokenID : Option String
  tokenSecret : Option String
  skipVerify : Option Bool

/-- The two diagnostics `Configure` can raise: "Missing Configuration"
(with the field named in the message) and "Invalid Token ID Format". -/
inductive ConfigError where
  | missingConfiguration (what : String)
  | invalidTokenIDFormat

/-- ProxmoxProvider.Configure: null checks on endpoint, token ID and
token secret (in that order), then the separator format check on the
token ID, then client construction. A null `skipVerify` defaults to no
TLS skip. -/
def configure (data : ProxmoxProviderModel) : Except ConfigError ProxmoxClient :=
  match data.endpoint with
  | none => .error (.missingConfiguration "endpoint")
  | some endpoint =>
    match data.tokenID with
    | none => .error (.missingConfiguration "API token ID")
    | some tokenID =>
      match data.tokenSecret with
      | none => .error (.missingConfiguration "API token secret")
      | some tokenSecret =>
        if tokenID.data.contains '!' then
          .ok { endpoint := endpoint
                tokenID := tokenID
                tokenSecret := tokenSecret
                insecureSkipVerify := (data.skipVerify.getD false) }
        else
          .error .invalidTokenIDFormat

/-- An outgoing HTTP request as assembled by `DoRequest`. -/
structure HttpRequest where
  method : String
  url : String
  headers : List (String × String)

/-- ProxmoxClient.DoRequest: builds the request for `method` and `path`.
The URL is the endpoint with one trailing separator trimmed, then the
fixed API prefix, then the path; the headers are the PVEAPIToken
authorization and the JSON content type. -/
def doRequest (c : ProxmoxClient) (method path : String) : HttpRequest :=
  { method := method
    url := trimSuffix c.endpoint "/" ++ "/api2/json" ++ path
    headers := [("Authorization", "PVEAPIToken=" ++ c.tokenID ++ "=" ++ c.tokenSecret),
                ("Content-Type", "application/json")] }

/-- The single request issued by the storages Read operation: a GET on
the path "/storage" with a nil body. -/
def storagesRequest (c : ProxmoxClient) : HttpRequest :=
  doRequest c "GET" "/storage"

/-- First header with the given name, as the Go header Get method would
return it. -/
def headerGet (req : HttpRequest) (name : String) : Option String :=
  (req.headers.find? (fun p => p.1 == name)).map (fun p => p.2)

/-- The projected output record. Each field is either a typed value or
null (`none`). Priority is an `int64` in the schema. -/
structure StorageModel where
  storage : Option String
  type : Option String
  content : Option String
  path : Option String
  priority : Option Int
  digest : Option String
  pruneBackups : Option String

/-- The smallest `int64` value, written out (minus 2 to the 63rd). -/
def int64Min : Int := -9223372036854775808

/-- The largest `int64` value, written out (2 to the 63rd minus 1). -/
def int64Max : Int := 9223372036854775807

/-- Truncation toward zero of a rational: on `q` in lowest terms, the
truncating division of the numerator by the denominator. The Go
conversion of a `float64` to `int64` is this truncation whenever the
truncated value is representable in `int64`; outside that range the Go
conversion is implementation-dependent, so only in-range values of this
function are relied on. -/
def ratTrunc (q : Rat) : Int :=
  q.num.tdiv (q.den : Int)

/-- The Go string type assertion on an optional dynamic value. -/
def asString : Option JVal → Option String
  | some (.str s) => some s
  | _ => none

/-- The Go float64 type assertion on an optional dynamic value. -/
def asNumber : Option JVal → Option Rat
  | some (.num q) => some q
  | _ => none

/-- The per-record projection loop body of the storages Read operation:
each known key is fetched from the raw map and type-asserted; on success
the typed value is stored, otherwise the field is set to null. -/
def projectStorage (storageData : RawRecord) : StorageModel :=
  { storage := asString (lookupJ "storage" storageData)
    type := asString (lookupJ "type" storageData)
    content := asString (lookupJ "content" storageData)
    path := asString (lookupJ "path" storageData)
    priority := (asNumber (lookupJ "priority" storageData)).map ratTrunc
    digest := asString (lookupJ "digest" storageData)
    pruneBackups := asString (lookupJ "prune-backups" storageData) }

/-- Unmarshalling of one payload-array element into an untyped Go map: an
object yields its field map, a JSON null yields a nil map (no keys, no
error), anything else is a decode error. -/
def decodeRecord : JVal → Option RawRecord
  | .null => some []
  | .obj fields => some fields
  | _ => none

/-- Element-wise decode of the payload array into a slice of untyped maps. -/
def decodeRecords : List JVal → Option (List RawRecord)
  | [] => some []
  | v :: rest =>
    match decodeRecord v, decodeRecords rest with
    | some r, some rs => some (r :: rs)
    | _, _ => none

/-- ASCII lower-casing of one character, as the Go decoder folds field
names when matching object keys against struct tags. -/
def asciiLower (c : Char) : Char :=
  if 65 ≤ c.toNat ∧ c.toNat ≤ 90 then Char.ofNat (c.toNat + 32) else c

/-- Key matching of the Go decoder for struct fields: an object key
matches a struct tag exactly or under ASCII case folding. -/
def keyFoldEq (k tag : String) : Bool :=
  k.data.map asciiLower == tag.data.map asciiLower

/-- Decoding of one value bound to the data field: a JSON null leaves the
slice nil (no records, no error), an array decodes element-wise, any
other shape is a decode error. -/
def decodeDataValue : JVal → Option (List RawRecord)
  | .null => some []
  | .arr elems => decodeRecords elems
  | _ => none

/-- Sequential decoding of every value bound to the data field, in
document order: the Go decoder saves an error from any occurrence and
still reports it even when a later occurrence decodes. -/
def decodeDataValues : List JVal → Option (List (List RawRecord))
  | [] => some []
  | v :: rest =>
    match decodeDataValue v, decodeDataValues rest with
    | some r, some rs => some (r :: rs)
    | _, _ => none

/-- Unmarshalling of the response body into the anonymous Go struct whose
only field is the data slice tagged "data". The decoder matches object
keys against the tag case-insensitively (ASCII fold), preferring nothing
beyond document order: every matching key is decoded into the field in
turn, so any failing occurrence is an error and otherwise the last
occurrence wins. A JSON null body, or an object with no matching key,
leaves the slice nil (success, zero records); a non-object, non-null body
is a decode error. -/
def decodeStorageResponse : JVal → Option (List RawRecord)
  | .null => some []
  | .obj fields =>
    match decodeDataValues
        ((fields.filter (fun p => keyFoldEq p.1 "data")).map Prod.snd) with
    | none => none
    | some rs => some (rs.getLastD [])
  | _ => none

/-- Sanity check of the decoder against the Go tag-matching rule: a
case-variant data key decodes records, and a case-variant data key with a
non-array value is a decode error rather than a success. -/
theorem decodeStorageResponse_case_variant :
    decodeStorageResponse
        (.obj [("Data", .arr [.obj [("storage", .str "a")]])]) =
      some [[("storage", .str "a")]] ∧
      decodeStorageResponse (.obj [("Data", .str "x")]) = none :=
  ⟨rfl, rfl⟩

/-- An HTTP response: status code, raw body, and the JSON parse of the
body (`none` when the body is not valid JSON). -/
structure HttpResponse where
  statusCode : Nat
  body : String
  bodyJson : Option JVal

/-- The request-time failure diagnostics of `Read`: "API Error" (carrying
the status and raw body) for a non-200 status, and "Parse Error" for a
body that fails to unmarshal. -/
inductive ReadError where
  | apiError (status : Nat) (body : String)
  | parseError

/-- The data-source state produced by a successful read. -/
structure StoragesDataSourceModel where
  id : String
  storages : List StorageModel

/-- The storages Read operation after the request returns: a non-200
status is an API error carrying status and body; an unparseable or
wrongly shaped body is a parse error; otherwise every raw record is
projected, in order, and the ID is set to the constant "storages". -/
def readStorages (resp : HttpResponse) : Except ReadError StoragesDataSourceModel :=
  if resp.statusCode ≠ 200 then
    .error (.apiError resp.statusCode resp.body)
  else
    match resp.bodyJson with
    | none => .error .parseError
    | some v =>
      match decodeStorageResponse v with
      | none => .error .parseError
      | some raws =>
        .ok { id := "storages", storages := raws.map projectStorage }

/-- C1: for the response body
`{"data":[{"storage":"local","type":"dir","priority":10}]}` with status
200, `Read` produces exactly one record with storage "local", type "dir",
priority 10, and content, path, digest and prune-backups all null. -/
theorem read_c1_single_record :
    readStorages
      { statusCode := 200
        body := "\x7b\"data\":[\x7b\"storage\":\"local\",\"type\":\"dir\",\"priority\":10\x7d]\x7d"
        bodyJson := some (.obj [("data", .arr [.obj
          [("storage", .str "local"), ("type", .str "dir"), ("priority", .num 10)]])]) } =
    .ok { id := "storages"
          storages := [{ storage := some "local", type := some "dir", content := none,
                         path := none, priority := some 10, digest := none,
                         pruneBackups := none }] } := by
  rfl

/-- Helper: the fixed API prefix followed by the storage path is the
literal storage collection path. -/
theorem api_json_storage_append :
    ("/api2/json" : String) ++ "/storage" = "/api2/json/storage" := rfl

/-- Helper: on a nonnegative rational, truncation toward zero agrees with
the floor. -/
theorem ratTrunc_eq_floor {q : Rat} (h : 0 ≤ q) : ratTrunc q = ⌊q⌋ := by
  rw [Rat.floor_def, ratTrunc]
  exact Int.tdiv_eq_ediv (Rat.num_nonneg.mpr h) (Int.natCast_nonneg _)

/-- Helper: truncation toward zero negates with its argument. -/
theorem ratTrunc_neg (q : Rat) : ratTrunc (-q) = -ratTrunc q := by
  simp [ratTrunc, Rat.neg_num, Rat.neg_den, Int.neg_tdiv]

/-- Helper: on a nonpositive rational, truncation toward zero agrees with
the ceiling. -/
theorem ratTrunc_eq_ceil {q : Rat} (h : q ≤ 0) : ratTrunc q = ⌈q⌉ := by
  have h2 : (0 : Rat) ≤ -q := by linarith
  have hfl : ratTrunc (-q) = ⌊-q⌋ := ratTrunc_eq_floor h2
  rw [ratTrunc_neg] at hfl
  have : ratTrunc q = -⌊-q⌋ := by omega
  rw [this, ← Int.ceil_neg, neg_neg]

/-- C2: whenever the body decodes to a list of raw records, Read succeeds
and the output is exactly the per-record projection of that list, in
order — one output per raw record, no filtering, reordering or
deduplication — so an empty data array yields zero records. -/
theorem read_projects_each_record (resp : HttpResponse) (v : JVal)
    (raws : List RawRecord) (h200 : resp.statusCode = 200)
    (hjson : resp.bodyJson = some v)
    (hdec : decodeStorageResponse v = some raws) :
    readStorages resp =
        .ok { id := "storages", storages := raws.map projectStorage } ∧
      (raws.map projectStorage).length = raws.length := by
  refine ⟨?_, List.length_map _ _⟩
  simp [readStorages, h200, hjson, hdec]

/-- C2 witness: an empty data array yields a successful read with zero
records. -/
theorem read_projects_each_record_witness :
    readStorages { statusCode := 200, body := "\x7b\"data\":[]\x7d",
                   bodyJson := some (.obj [("data", .arr [])]) } =
        .ok { id := "storages", storages := [] } ∧
      (0 : Nat) = 0 :=
  read_projects_each_record _ _ [] rfl rfl rfl

/-- C3 counterexample: a 200 response whose body is the valid JSON object
with no data key succeeds with zero records instead of failing with a
decode error. -/
theorem read_missing_data_key_succeeds :
    readStorages { statusCode := 200, body := "\x7b\x7d",
                   bodyJson := some (.obj []) } =
      .ok { id := "storages", storages := [] } := rfl

/-- C3 (amended): a 200 response fails with the decode diagnostic when
the body is not valid JSON, or when it is valid JSON that cannot be
unmarshalled into the expected shape; a valid JSON object with no key
matching the data tag (the match being case-insensitive, as the Go
decoder accepts for struct tags) instead succeeds with zero records. -/
theorem read_decode_error_conditions (resp : HttpResponse)
    (h200 : resp.statusCode = 200) :
    (resp.bodyJson = none → readStorages resp = .error .parseError) ∧
      (∀ v, resp.bodyJson = some v → decodeStorageResponse v = none →
        readStorages resp = .error .parseError) ∧
      (∀ fields, resp.bodyJson = some (.obj fields) →
        fields.filter (fun p => keyFoldEq p.1 "data") = [] →
        readStorages resp = .ok { id := "storages", storages := [] }) := by
  refine ⟨fun h => ?_, fun v hv hd => ?_, fun fields hf hl => ?_⟩
  · simp [readStorages, h200, h]
  · simp [readStorages, h200, hv, hd]
  · simp [readStorages, h200, hf, decodeStorageResponse, hl, decodeDataValues]

/-- C3 witness: a body that is not valid JSON fails with the decode
diagnostic. -/
theorem read_decode_error_conditions_witness :
    readStorages { statusCode := 200, body := "not json", bodyJson := none } =
      .error .parseError :=
  (read_decode_error_conditions _ rfl).1 rfl

/-- C4 counterexample: a valid configuration whose endpoint ends in a path
separator is accepted, and the stored endpoint of the produced client
still ends in that separator — Configure does not trim it. -/
theorem configure_keeps_trailing_separator :
    configure { endpoint := some "https://proxmox.example.com:8006/",
                tokenID := some "root@pam!mytesttoken",
                tokenSecret := some "secret", skipVerify := none } =
        .ok { endpoint := "https://proxmox.example.com:8006/",
              tokenID := "root@pam!mytesttoken", tokenSecret := "secret",
              insecureSkipVerify := false } ∧
      "https://proxmox.example.com:8006/".data.getLast? = some (Char.ofNat 47) :=
  ⟨rfl, rfl⟩

/-- C4 (amended): Configure stores the configured endpoint verbatim in
the client descriptor; the trailing path separator is trimmed later, at
request time, when the URL of each request is built from the stored
endpoint. -/
theorem configure_defers_trailing_separator_trim (data : ProxmoxProviderModel)
    (c : ProxmoxClient) (h : configure data = .ok c) :
    data.endpoint = some c.endpoint ∧
      (storagesRequest c).url =
        trimSuffix c.endpoint "/" ++ "/api2/json/storage" := by
  obtain ⟨ep, tid, ts, sv⟩ := data
  cases ep with
  | none => simp [configure] at h
  | some e =>
    cases tid with
    | none => simp [configure] at h
    | some t =>
      cases ts with
      | none => simp [configure] at h
      | some s =>
        simp only [configure] at h
        cases hc : t.data.contains '!' with
        | false =>
          rw [hc] at h
          simp at h
        | true =>
          rw [hc] at h
          simp at h
          subst h
          refine ⟨rfl, ?_⟩
          show trimSuffix e "/" ++ "/api2/json" ++ "/storage" = _
          rw [String.append_assoc, api_json_storage_append]

/-- C4 witness: a concrete configuration with a trailing separator on the
endpoint, showing the stored endpoint and the built request URL. -/
theorem configure_defers_trailing_separator_trim_witness :
    (some "https://pve.internal:8006/" : Option String) =
        some "https://pve.internal:8006/" ∧
      (storagesRequest { endpoint := "https://pve.internal:8006/",
                         tokenID := "user@pve!tok", tokenSecret := "s1",
                         insecureSkipVerify := false }).url =
        trimSuffix "https://pve.internal:8006/" "/" ++ "/api2/json/storage" :=
  configure_defers_trailing_separator_trim
    { endpoint := some "https://pve.internal:8006/",
      tokenID := some "user@pve!tok", tokenSecret := some "s1",
      skipVerify := none } _ rfl

/-- C5 counterexample: a configuration whose endpoint and token secret are
present but are empty strings is accepted by Configure (a client is
produced), so an empty string does not fail as missing configuration. -/
theorem configure_accepts_empty_strings :
    configure { endpoint := some "", tokenID := some "root@pam!token",
                tokenSecret := some "", skipVerify := none } =
      .ok { endpoint := "", tokenID := "root@pam!token", tokenSecret := "",
            insecureSkipVerify := false } := rfl

/-- C5 (amended): Configure fails with the missing-configuration
diagnostic exactly when the endpoint, the token ID or the token secret is
null (absent); present-but-empty strings are not rejected as missing. -/
theorem configure_missing_iff_null (data : ProxmoxProviderModel) :
    (∃ w, configure data = .error (.missingConfiguration w)) ↔
      (data.endpoint = none ∨ data.tokenID = none ∨
        data.tokenSecret = none) := by
  obtain ⟨ep, tid, ts, sv⟩ := data
  constructor
  · rintro ⟨w, hw⟩
    cases ep with
    | none => exact Or.inl rfl
    | some e =>
      cases tid with
      | none => exact Or.inr (Or.inl rfl)
      | some t =>
        cases ts with
        | none => exact Or.inr (Or.inr rfl)
        | some s =>
          simp only [configure] at hw
          cases hc : t.data.contains '!' <;> rw [hc] at hw <;> simp at hw
  · rintro (h | h | h)
    · cases h; exact ⟨"endpoint", rfl⟩
    · cases h
      cases ep with
      | none => exact ⟨"endpoint", rfl⟩
      | some e => exact ⟨"API token ID", rfl⟩
    · cases h
      cases ep with
      | none => exact ⟨"endpoint", rfl⟩
      | some e =>
        cases tid with
        | none => exact ⟨"API token ID", rfl⟩
        | some t => exact ⟨"API token secret", rfl⟩

/-- C6: with endpoint and token secret present, a token ID that does not
contain the separator character makes Configure fail with the
invalid-format diagnostic, so no client is produced and no request is
ever built. -/
theorem configure_invalid_token_id_format (data : ProxmoxProviderModel)
    (ep tid ts : String) (hEp : data.endpoint = some ep)
    (hTid : data.tokenID = some tid) (hTs : data.tokenSecret = some ts)
    (hSep : tid.data.contains '!' = false) :
    configure data = .error .invalidTokenIDFormat := by
  simp only [configure, hEp, hTid, hTs]
  rw [hSep]
  simp

/-- C6 witness: a token ID without the separator is rejected with the
invalid-format diagnostic. -/
theorem configure_invalid_token_id_format_witness :
    configure { endpoint := some "https://node1:8006",
                tokenID := some "rootpam", tokenSecret := some "sec",
                skipVerify := some true } =
      .error .invalidTokenIDFormat :=
  configure_invalid_token_id_format _ "https://node1:8006" "rootpam" "sec"
    rfl rfl rfl rfl

/-- C7: every response with a status other than 200 makes Read fail with
the API-error diagnostic carrying the original status code and the raw
response body, producing no records. -/
theorem read_non_200_api_error (resp : HttpResponse)
    (h : resp.statusCode ≠ 200) :
    readStorages resp = .error (.apiError resp.statusCode resp.body) := by
  simp [readStorages, h]

/-- C7 witness: a 500 response fails with the API-error diagnostic
carrying status 500 and the body. -/
theorem read_non_200_api_error_witness :
    readStorages { statusCode := 500, body := "storage unavailable",
                   bodyJson := none } =
      .error (.apiError 500 "storage unavailable") :=
  read_non_200_api_error _ (by decide)

/-- C8: for every client, the single request of the list operation is a
GET whose URL is the endpoint with the trailing separator trimmed
followed by "/api2/json/storage", whose Authorization header is exactly
the PVEAPIToken scheme applied to the token ID and secret, and whose
Content-Type header is "application/json". -/
theorem storages_request_spec (c : ProxmoxClient) :
    (storagesRequest c).method = "GET" ∧
      (storagesRequest c).url =
        trimSuffix c.endpoint "/" ++ "/api2/json/storage" ∧
      headerGet (storagesRequest c) "Authorization" =
        some ("PVEAPIToken=" ++ c.tokenID ++ "=" ++ c.tokenSecret) ∧
      headerGet (storagesRequest c) "Content-Type" =
        some "application/json" := by
  refine ⟨rfl, ?_, rfl, rfl⟩
  show trimSuffix c.endpoint "/" ++ "/api2/json" ++ "/storage" = _
  rw [String.append_assoc, api_json_storage_append]

/-- C9 counterexample: the wire priority 1e19 (a value exactly
representable as a float64) truncates to an integer strictly above the
largest `int64`, so the int64 priority the program stores cannot equal
that truncation — there the Go float-to-int conversion is
implementation-dependent, not truncation, and the claim as stated fails. -/
theorem priority_trunc_overflows_int64 :
    int64Max < ratTrunc (mkRat 10000000000000000000 1) := by decide

/-- C9 (amended): when the priority key holds a number whose truncation
toward zero is representable in `int64`, the projected priority is that
truncation; when the key is missing or holds any non-number the projected
priority is null; truncation toward zero is the floor on nonnegative
values and the ceiling on nonpositive ones (no rounding). Outside the
`int64` range the Go conversion is implementation-dependent and nothing
is claimed. -/
theorem project_priority_truncation (r : RawRecord) :
    (∀ q : Rat, lookupJ "priority" r = some (.num q) →
        int64Min ≤ ratTrunc q → ratTrunc q ≤ int64Max →
        (projectStorage r).priority = some (ratTrunc q)) ∧
      ((∀ q : Rat, lookupJ "priority" r ≠ some (.num q)) →
        (projectStorage r).priority = none) ∧
      (∀ q : Rat, 0 ≤ q → ratTrunc q = ⌊q⌋) ∧
      (∀ q : Rat, q ≤ 0 → ratTrunc q = ⌈q⌉) := by
  refine ⟨fun q hq h1 h2 => ?_, fun hq => ?_,
    fun q hq => ratTrunc_eq_floor hq, fun q hq => ratTrunc_eq_ceil hq⟩
  · simp [projectStorage, asNumber, hq]
  · rcases hl : lookupJ "priority" r with _ | v
    · simp [projectStorage, asNumber, hl]
    · cases v with
      | null => simp [projectStorage, asNumber, hl]
      | bool b => simp [projectStorage, asNumber, hl]
      | num q => exact absurd hl (hq q)
      | str s => simp [projectStorage, asNumber, hl]
      | arr es => simp [projectStorage, asNumber, hl]
      | obj fs => simp [projectStorage, asNumber, hl]

/-- C9 witness: a priority of 10.5 on the wire, whose truncation is in
the `int64` range, is projected to the integer 10. -/
theorem project_priority_truncation_witness :
    (projectStorage [("priority", JVal.num (mkRat 21 2))]).priority =
        some (ratTrunc (mkRat 21 2)) ∧
      ratTrunc (mkRat 21 2) = 10 :=
  ⟨(project_priority_truncation _).1 (mkRat 21 2) rfl (by decide) (by decide),
    by decide⟩

/-- C10: every successful read sets the ID output field to the constant
string "storages", regardless of configuration and response content. -/
theorem read_id_always_storages (resp : HttpResponse)
    (out : StoragesDataSourceModel) (h : readStorages resp = .ok out) :
    out.id = "storages" := by
  by_cases h200 : resp.statusCode = 200
  · rcases hv : resp.bodyJson with _ | v
    · simp [readStorages, h200, hv] at h
    · rcases hd : decodeStorageResponse v with _ | raws
      · simp [readStorages, h200, hv, hd] at h
      · simp [readStorages, h200, hv, hd] at h
        rw [← h]
  · simp [readStorages, h200] at h

/-- C10 witness: a successful read of a null payload has ID "storages". -/
theorem read_id_always_storages_witness :
    ({ id := "storages", storages := [] } : StoragesDataSourceModel).id =
      "storages" :=
  read_id_always_storages
    { statusCode := 200, body := "null", bodyJson := some .null } _ rfl

end Proxmox
